import Mathlib

/-!
Shallow embedding of the snapconvert peer-to-peer transfer protocol and the
OCR/DOCX pipeline, translated from:
  * `src/MobileUpload.tsx`  — sender (phone) role
  * `PhoneUploadModal`      — receiver (PC) role
  * `index` entry module    — role selection from the launch URL
  * `vite.config`           — `getLocalIP` build-time address resolution
  * `src/App.tsx`           — `extractTextFromImages`, `convertToDocx`
-/

/-- One user-selected file: display name, content-type tag, and payload bytes
(an `ArrayBuffer` modelled as a list of byte values). -/
structure FileData where
  name : String
  mimeType : String
  bytes : List Nat
deriving DecidableEq, Repr

/-- The tagged-union message vocabulary exchanged on the data channel
(`{type:"file",...}` / `{type:"done"}`). -/
inductive ControlMessage where
  | file (name : String) (mimeType : String) (data : List Nat)
      (index : Nat) (total : Nat)
  | done
deriving DecidableEq, Repr

/-- The loop body of `sendFiles` in `MobileUpload.tsx` (lines 84-101): for each
selected file, emit one file message carrying the loop index `i` and the batch
total. -/
def sendLoop (files : List FileData) (total : Nat) (i : Nat) :
    List ControlMessage :=
  match files with
  | [] => []
  | f :: rest =>
      ControlMessage.file f.name f.mimeType f.bytes i total
        :: sendLoop rest total (i + 1)

/-- The message trace of `sendFiles` (`MobileUpload.tsx` lines 76-106): guard
`if (!conn || selectedFiles.length === 0) return;`, then the send loop over
`selectedFiles` with `total = selectedFiles.length`, then `{type:"done"}`. -/
def sendFiles (connOpen : Bool) (selectedFiles : List FileData) :
    List ControlMessage :=
  if !connOpen || selectedFiles.length == 0 then []
  else sendLoop selectedFiles selectedFiles.length 0 ++ [ControlMessage.done]

/-- Receiver modal status (`PhoneUploadModal`, `ModalStatus`). -/
inductive ModalStatus where
  | initializing
  | waiting
  | connected
  | receiving
  | done
  | error
deriving DecidableEq, Repr

/-- A raw incoming data-channel payload as the receiver casts it:
every field other than `type` may be absent. -/
structure RawMsg where
  type : String
  name : Option String
  mimeType : Option String
  data : Option (List Nat)
  index : Option Nat
  total : Option Nat
deriving DecidableEq, Repr

/-- JavaScript truthiness of an optional string field: an absent field and the
empty string are falsy. -/
def truthyStr : Option String → Bool
  | some s => s != ""
  | none => false

/-- JavaScript truthiness of an optional `ArrayBuffer` field: any present
buffer object (even of length zero) is truthy; an absent field is falsy. -/
def truthyBuf : Option (List Nat) → Bool
  | some _ => true
  | none => false

/-- Receiver session state: status, the `receivedFilesRef` accumulator, the two
progress counters, and the log of every `onFilesReceived` call made to the
hosting application. -/
structure ReceiverState where
  status : ModalStatus
  receivedFiles : List FileData
  receivedCount : Nat
  totalCount : Nat
  delivered : List (List FileData)
deriving DecidableEq, Repr

/-- Receiver state right after the `connection` event: status `connected`, no
files, no deliveries. -/
def initialReceiver : ReceiverState :=
  { status := .connected
    receivedFiles := []
    receivedCount := 0
    totalCount := 0
    delivered := [] }

/-- The `conn.on('data')` handler of `PhoneUploadModal` (lines 49-73): a
`file`-typed payload with truthy `data`, `name` and `mimeType` is appended to
`receivedFilesRef` and the counters and status updated; then, independently, a
`done`-typed payload finalizes and calls `onFilesReceived`. -/
def handleData (s : ReceiverState) (m : RawMsg) : ReceiverState :=
  let s1 :=
    if m.type == "file" && truthyBuf m.data && truthyStr m.name
        && truthyStr m.mimeType then
      let f : FileData :=
        { name := m.name.getD ""
          mimeType := m.mimeType.getD ""
          bytes := m.data.getD [] }
      { s with
          receivedFiles := s.receivedFiles ++ [f]
          totalCount := m.total.getD 0
          receivedCount := s.receivedFiles.length + 1
          status := .receiving }
    else s
  if m.type == "done" then
    { s1 with
        status := .done
        delivered := s1.delivered ++ [s1.receivedFiles] }
  else s1

/-- The `conn.on('close')` handler of `PhoneUploadModal` (lines 75-81): if any
files were received, set status `done` and call `onFilesReceived` — with no
check of the current status. -/
def handleClose (s : ReceiverState) : ReceiverState :=
  if s.receivedFiles.length > 0 then
    { s with
        status := .done
        delivered := s.delivered ++ [s.receivedFiles] }
  else s

/-- The events the receiver reacts to: identifier assignment (`peer.on('open')`),
an inbound connection, a data message, channel close, and a peer error. -/
inductive RecvEvent where
  | assigned
  | connection
  | data (m : RawMsg)
  | close
  | peerError
deriving DecidableEq, Repr

/-- One receiver step, dispatching on the event as `PhoneUploadModal` does. -/
def recvStep (s : ReceiverState) : RecvEvent → ReceiverState
  | .assigned => { s with status := .waiting }
  | .connection => { s with status := .connected }
  | .data m => handleData s m
  | .close => handleClose s
  | .peerError => { s with status := .error }

/-- Run the receiver over a sequence of events. -/
def recvRun (s : ReceiverState) (es : List RecvEvent) : ReceiverState :=
  es.foldl recvStep s

/-- Encode a well-formed wire `ControlMessage` as the raw payload the receiver
casts it to. -/
def ControlMessage.toRaw : ControlMessage → RawMsg
  | .file n m d i t =>
      { type := "file", name := some n, mimeType := some m
        data := some d, index := some i, total := some t }
  | .done =>
      { type := "done", name := none, mimeType := none
        data := none, index := none, total := none }

/-- The raw `{type:"done"}` payload. -/
def rawDone : RawMsg := ControlMessage.done.toRaw

/-- The receiver's acceptance guard on a raw payload, exactly as written in the
`data` handler: `payload.type === 'file' && payload.data && payload.name &&
payload.mimeType`. -/
def acceptedMsg (m : RawMsg) : Bool :=
  m.type == "file" && truthyBuf m.data && truthyStr m.name
    && truthyStr m.mimeType

/-- The file object the receiver constructs from an accepted raw payload
(`new File([new Blob([payload.data],{type})], payload.name, {type})`). -/
def rawToFile (m : RawMsg) : FileData :=
  { name := m.name.getD ""
    mimeType := m.mimeType.getD ""
    bytes := m.data.getD [] }

/-- The files the receiver accumulates from a message sequence: one file object
per raw payload that passes the acceptance guard, in arrival order. -/
def acceptedFiles (msgs : List RawMsg) : List FileData :=
  (msgs.filter acceptedMsg).map rawToFile

/-- Sender page status (`MobileUpload.tsx`, `Status`). -/
inductive SenderStatus where
  | connecting
  | connected
  | sending
  | done
  | error
deriving DecidableEq, Repr

/-- The `conn.on('close')` handler of `MobileUpload.tsx` (lines 42-45):
`setStatus(prev => prev === 'done' ? 'done' : 'error')`. -/
def senderOnClose (prev : SenderStatus) : SenderStatus :=
  if prev = .done then .done else .error

/-- A launch URL's query string as an ordered list of key/value pairs. -/
abbrev Query := List (String × String)

/-- `URLSearchParams.get`: the value of the first pair with the given key, if
any. -/
def getParam (query : Query) (key : String) : Option String :=
  (query.find? (fun p => p.1 == key)).map Prod.snd

/-- `URLSearchParams.has`: whether a pair with the given key is present,
whatever its value. -/
def hasParam (query : Query) (key : String) : Bool :=
  (query.find? (fun p => p.1 == key)).isSome

/-- Role selection in the entry module:
`params.get('mode') === 'upload' && params.has('peer')`; `true` renders the
sender page (`MobileUpload`), `false` the receiver application (`App`). -/
def isMobileUpload (query : Query) : Bool :=
  getParam query "mode" == some "upload" && hasParam query "peer"

/-- Sender-role selection as the claim states it: `mode=upload` together with a
peer parameter that is present and non-empty. Stated from the spec's words for
comparison with `isMobileUpload`. -/
def senderRoleSpec (query : Query) : Bool :=
  getParam query "mode" == some "upload"
    && (match getParam query "peer" with
        | some v => v != ""
        | none => false)

/-- One entry of `os.networkInterfaces()` as `getLocalIP` reads it. -/
structure NetworkInterface where
  family : String
  internal : Bool
  address : String
deriving DecidableEq, Repr

/-- `getLocalIP` from the build configuration (lines 8-18): the address of the
first non-internal IPv4 interface, else `"localhost"`. -/
def getLocalIP (interfaces : List NetworkInterface) : String :=
  match interfaces.find? (fun i => i.family == "IPv4" && !i.internal) with
  | some i => i.address
  | none => "localhost"

/-- The hostname the receiver puts in the shareable URL (`PhoneUploadModal`
lines 35-38): `localIP = process.env.LOCAL_IP || window.location.hostname`,
substituted when the page's hostname is `localhost` or `127.0.0.1`. -/
def chooseHostname (envLocalIP hostname : String) : String :=
  let localIP := if envLocalIP == "" then hostname else envLocalIP
  if hostname == "localhost" || hostname == "127.0.0.1" then localIP
  else hostname

/-- The port fragment of the shareable URL (line 39):
`window.location.port ? ':'+port : ''`. -/
def portFragment (port : String) : String :=
  if port == "" then "" else ":" ++ port

/-- The shareable URL the receiver publishes (lines 40-41):
`protocol + '//' + hostname + port + '?mode=upload&peer=' + id`. -/
def qrUrl (protocol hostname port envLocalIP peerId : String) : String :=
  protocol ++ "//" ++ chooseHostname envLocalIP hostname
    ++ portFragment port ++ "?mode=upload&peer=" ++ peerId

/-- One text block returned by the OCR collaborator: text content and an
alignment tag (an arbitrary string at this stage; the document assembler maps
unknown tags to left). -/
structure OcrBlock where
  text : String
  alignment : String
deriving DecidableEq, Repr

/-- The string handed to the JSON parser per image
(`JSON.parse(response.text || "[]")`): the response text when truthy, else
`"[]"`. -/
def parseInput (respText : Option String) : String :=
  match respText with
  | some s => if s == "" then "[]" else s
  | none => "[]"

/-- The fallback text used when parsing fails (`response.text || ""`). -/
def fallbackText (respText : Option String) : String :=
  match respText with
  | some s => if s == "" then "" else s
  | none => ""

/-- The per-image body of `extractTextFromImages` (`App.tsx` lines 243-249):
push the parsed block array, or on parse failure push a single raw-text block
aligned left. The JSON parser is an external collaborator, passed in as a
function returning `none` exactly when parsing throws. -/
def extractOne (parse : String → Option (List OcrBlock))
    (respText : Option String) : List OcrBlock :=
  match parse (parseInput respText) with
  | some blocks => blocks
  | none => [{ text := fallbackText respText, alignment := "left" }]

/-- `extractTextFromImages` over the batch: one block list per image response,
in order; the loop never aborts. -/
def extractTextFromImages (parse : String → Option (List OcrBlock))
    (responses : List (Option String)) : List (List OcrBlock) :=
  responses.map (extractOne parse)

/-- The docx alignment constants used by `convertToDocx`. -/
inductive AlignmentType where
  | LEFT
  | CENTER
  | RIGHT
deriving DecidableEq, Repr

/-- The alignment lookup of `convertToDocx`
(`alignmentMap[block.alignment] || AlignmentType.LEFT`). -/
def alignmentMap (alignment : String) : AlignmentType :=
  if alignment == "left" then .LEFT
  else if alignment == "center" then .CENTER
  else if alignment == "right" then .RIGHT
  else .LEFT

/-- A paragraph pushed by `convertToDocx`: either a text paragraph with an
alignment, or the spacer paragraph `new Paragraph({children:[new TextRun("")]})`. -/
inductive DocxParagraph where
  | text (alignment : AlignmentType) (content : String)
  | blank
deriving DecidableEq, Repr

/-- The `children` array assembled by `convertToDocx` (`App.tsx` lines 275-297):
for each image's block list, one aligned text paragraph per block, then —
unconditionally — one spacer paragraph. -/
def convertChildren : List (List OcrBlock) → List DocxParagraph
  | [] => []
  | imageBlocks :: rest =>
      imageBlocks.map
          (fun b => DocxParagraph.text (alignmentMap b.alignment) b.text)
        ++ [DocxParagraph.blank] ++ convertChildren rest

/-- Shape of the send loop's output: starting at index `j`, the loop emits one
file message per selected file, with consecutive indices. -/
theorem sendLoop_eq (files : List FileData) (total : Nat) (j : Nat) :
    sendLoop files total j =
      (List.range files.length).map
        (fun i =>
          ControlMessage.file (files.getD i ⟨"", "", []⟩).name
            (files.getD i ⟨"", "", []⟩).mimeType
            (files.getD i ⟨"", "", []⟩).bytes (j + i) total) := by
  induction files generalizing j with
  | nil => simp [sendLoop]
  | cons f rest ih =>
      rw [sendLoop, List.length_cons, List.range_succ_eq_map, List.map_cons,
        List.map_map, ih (j + 1)]
      refine congrArg₂ List.cons (by simp) ?_
      refine List.map_congr_left fun i _ => ?_
      have harith : j + (i + 1) = j + 1 + i := by omega
      simp [Function.comp, harith]

/-- Demonstration batch of two selected files. -/
def demoFiles : List FileData :=
  [{ name := "a.jpg", mimeType := "image/jpeg", bytes := [1, 2] },
   { name := "b.png", mimeType := "image/png", bytes := [3] }]

/-- C1: for every batch of N >= 1 selected files, a successful run of
`sendFiles` transmits exactly N file messages with indices `0..N-1` in
increasing order and `total = N` in every message, followed by exactly one done
message, and nothing else, in that order. -/
theorem sender_batch_messages (files : List FileData) (h : files ≠ []) :
    sendFiles true files =
      (List.range files.length).map
        (fun i =>
          ControlMessage.file (files.getD i ⟨"", "", []⟩).name
            (files.getD i ⟨"", "", []⟩).mimeType
            (files.getD i ⟨"", "", []⟩).bytes i files.length)
      ++ [ControlMessage.done] := by
  have hlen : (files.length == 0) = false := by
    simp [List.length_eq_zero, h]
  rw [sendFiles]
  simp only [Bool.not_true, Bool.false_or, hlen, if_neg Bool.false_ne_true,
    sendLoop_eq files files.length 0]
  simp

/-- C1 witness: the two-file demonstration batch produces exactly its two file
messages, indices 0 and 1 with total 2, then the done message. -/
theorem sender_batch_messages_witness :
    demoFiles ≠ [] ∧
      sendFiles true demoFiles =
        (List.range demoFiles.length).map
          (fun i =>
            ControlMessage.file (demoFiles.getD i ⟨"", "", []⟩).name
              (demoFiles.getD i ⟨"", "", []⟩).mimeType
              (demoFiles.getD i ⟨"", "", []⟩).bytes i demoFiles.length)
        ++ [ControlMessage.done] :=
  ⟨by decide, sender_batch_messages demoFiles (by decide)⟩

/-- C7: a channel close after the sender reached `done` leaves it in `done`;
a channel close from any other status transitions the sender to `error`. -/
theorem sender_close_policy (s : SenderStatus) (h : s ≠ .done) :
    senderOnClose .done = .done ∧ senderOnClose s = .error := by
  constructor
  · rfl
  · simp [senderOnClose, h]

/-- C7 witness: a close while still `sending` yields `error`, while a close in
`done` stays `done`. -/
theorem sender_close_policy_witness :
    SenderStatus.sending ≠ .done ∧
      (senderOnClose .done = .done ∧ senderOnClose .sending = .error) :=
  ⟨by decide, sender_close_policy .sending (by decide)⟩

/-- C5 counterexample: on the launch query `?mode=upload&peer=` (peer present
but empty) the code selects the sender page, while the claim's selection rule
(`mode=upload` and a non-empty peer) demands the receiver role. -/
theorem role_selection_counterexample :
    isMobileUpload [("mode", "upload"), ("peer", "")] = true ∧
      senderRoleSpec [("mode", "upload"), ("peer", "")] = false := by
  decide

/-- C5 amended: the application selects the sender page exactly when the query
has `mode=upload` and a `peer` parameter is present, whatever its value. -/
theorem role_selection_presence (query : Query) :
    isMobileUpload query = true ↔
      getParam query "mode" = some "upload" ∧ hasParam query "peer" = true := by
  simp [isMobileUpload, Bool.and_eq_true]

/-- C9 evaluated at a one-image batch: `convertChildren` appends the spacer
paragraph even after the last image, contradicting the source's own comment
that the spacer is added after each image "except the last one". -/
theorem docx_trailing_blank_after_last_image :
    convertChildren [[{ text := "hello", alignment := "left" }]]
      = [DocxParagraph.text .LEFT "hello", DocxParagraph.blank] := by
  decide

/-- C10: an incoming `file`-typed payload whose `name`, `mimeType` or `data`
field is missing or falsy is silently discarded: the data handler leaves the
whole receiver state — accumulated files, counters, status and the delivery
log — unchanged. -/
theorem invalid_file_message_discarded (s : ReceiverState) (m : RawMsg)
    (htype : m.type = "file")
    (hbad : truthyStr m.name = false ∨ truthyStr m.mimeType = false
      ∨ truthyBuf m.data = false) :
    handleData s m = s := by
  have hdone : (m.type == "done") = false := by simp [htype]
  rw [handleData]
  rcases hbad with hb | hb | hb <;>
    simp [hb, hdone]

/-- C10 witness: a `file` payload with an empty-string name is discarded from
the freshly connected receiver state. -/
theorem invalid_file_message_discarded_witness :
    (RawMsg.mk "file" (some "") (some "image/jpeg") (some [1]) (some 0)
        (some 1)).type = "file" ∧
      handleData initialReceiver
        (RawMsg.mk "file" (some "") (some "image/jpeg") (some [1]) (some 0)
          (some 1)) = initialReceiver :=
  ⟨by decide,
    invalid_file_message_discarded initialReceiver
      (RawMsg.mk "file" (some "") (some "image/jpeg") (some [1]) (some 0)
        (some 1)) (by decide) (by decide)⟩

/-- C4: when the sender transmits a selected file as a file message, the file
object the receiver appends has exactly the sent name, MIME type and payload
bytes — it is the very same `FileData` value (given the non-empty name and
MIME type that the receiver's truthiness guard requires to accept it). -/
theorem file_roundtrip_preserved (s : ReceiverState) (f : FileData)
    (i total : Nat) (hn : f.name ≠ "") (hm : f.mimeType ≠ "") :
    (handleData s
        ((ControlMessage.file f.name f.mimeType f.bytes i total).toRaw)).receivedFiles
      = s.receivedFiles ++ [f] := by
  rw [handleData, ControlMessage.toRaw]
  simp [truthyStr, truthyBuf, hn, hm]

/-- C4 witness: the file `a.jpg` of MIME `image/jpeg` with bytes `[7, 8]` is
appended to the receiver's collection unchanged. -/
theorem file_roundtrip_preserved_witness :
    (FileData.mk "a.jpg" "image/jpeg" [7, 8]).name ≠ "" ∧
      (FileData.mk "a.jpg" "image/jpeg" [7, 8]).mimeType ≠ "" ∧
      (handleData initialReceiver
          ((ControlMessage.file "a.jpg" "image/jpeg" [7, 8] 0 1).toRaw)).receivedFiles
        = initialReceiver.receivedFiles ++ [FileData.mk "a.jpg" "image/jpeg" [7, 8]] :=
  ⟨by decide, by decide,
    file_roundtrip_preserved initialReceiver
      (FileData.mk "a.jpg" "image/jpeg" [7, 8]) 0 1 (by decide) (by decide)⟩

/-- C6: given the non-empty build-time LAN address, the published URL uses that
address in place of the host exactly when the page's host is a loopback name
(`localhost` or `127.0.0.1`), uses the page's host verbatim otherwise, and in
both cases keeps the page's scheme and port. -/
theorem qr_url_host_rule (protocol hostname port envLocalIP peerId : String)
    (henv : envLocalIP ≠ "") :
    qrUrl protocol hostname port envLocalIP peerId =
      protocol ++ "//"
        ++ (if hostname = "localhost" ∨ hostname = "127.0.0.1" then envLocalIP
            else hostname)
        ++ (if port = "" then "" else ":" ++ port)
        ++ "?mode=upload&peer=" ++ peerId := by
  rw [qrUrl, chooseHostname, portFragment]
  simp [henv]

/-- C6 witness: a page served at `http://localhost:3000` publishes the URL with
the detected LAN address `192.168.1.5` substituted for the host, scheme and
port preserved. -/
theorem qr_url_host_rule_witness :
    getLocalIP [NetworkInterface.mk "IPv4" false "192.168.1.5"] ≠ "" ∧
      qrUrl "http:" "localhost" "3000"
          (getLocalIP [NetworkInterface.mk "IPv4" false "192.168.1.5"]) "pid7"
        = "http:" ++ "//"
            ++ (if ("localhost" : String) = "localhost"
                  ∨ ("localhost" : String) = "127.0.0.1" then
                  getLocalIP [NetworkInterface.mk "IPv4" false "192.168.1.5"]
                else "localhost")
            ++ (if ("3000" : String) = "" then "" else ":" ++ "3000")
            ++ "?mode=upload&peer=" ++ "pid7" :=
  ⟨by decide,
    qr_url_host_rule "http:" "localhost" "3000"
      (getLocalIP [NetworkInterface.mk "IPv4" false "192.168.1.5"]) "pid7"
      (by decide)⟩

/-- Unfolding of the data handler on a payload that is not `done`-typed: the
state is extended by the constructed file object exactly when the acceptance
guard holds, and is untouched otherwise. -/
theorem handleData_not_done (s : ReceiverState) (m : RawMsg)
    (hm : m.type ≠ "done") :
    handleData s m =
      if acceptedMsg m then
        { s with
            receivedFiles := s.receivedFiles ++ [rawToFile m]
            totalCount := m.total.getD 0
            receivedCount := s.receivedFiles.length + 1
            status := .receiving }
      else s := by
  rw [handleData]
  simp [acceptedMsg, rawToFile, hm]

/-- Invariant of a run of data events that contains no terminator: the
accumulated collection grows by exactly the accepted file objects, in order,
and no delivery to the hosting application happens. -/
theorem recvRun_data_inv (msgs : List RawMsg) (s : ReceiverState)
    (h : ∀ m ∈ msgs, m.type ≠ "done") :
    (recvRun s (msgs.map RecvEvent.data)).receivedFiles
        = s.receivedFiles ++ acceptedFiles msgs ∧
      (recvRun s (msgs.map RecvEvent.data)).delivered = s.delivered := by
  induction msgs generalizing s with
  | nil => simp [recvRun, acceptedFiles]
  | cons m rest ih =>
      have hm : m.type ≠ "done" := h m (List.mem_cons_self m rest)
      have hrest : ∀ m' ∈ rest, m'.type ≠ "done" :=
        fun m' hm' => h m' (List.mem_cons_of_mem m hm')
      have hstep : recvRun s ((m :: rest).map RecvEvent.data)
          = recvRun (handleData s m) (rest.map RecvEvent.data) := rfl
      rw [hstep, handleData_not_done s m hm]
      by_cases hacc : acceptedMsg m = true
      · rcases ih _ hrest with ⟨h1, h2⟩
        rw [if_pos hacc]
        refine ⟨?_, h2⟩
        rw [h1]
        simp [acceptedFiles, List.filter_cons, hacc]
      · rw [if_neg hacc]
        rcases ih s hrest with ⟨h1, h2⟩
        refine ⟨?_, h2⟩
        rw [h1]
        simp [acceptedFiles, List.filter_cons, hacc]

/-- C3 counterexample: the trace carrying one `file`-typed message (with an
empty-string name) and then the terminator finalizes with an empty delivered
collection — length 0, although one file-type message was received before
finalization. -/
theorem receiver_finalized_length_counterexample :
    (RawMsg.mk "file" (some "") (some "image/jpeg") (some [1]) (some 0)
        (some 1)).type = "file" ∧
      (recvRun initialReceiver
          [.data (RawMsg.mk "file" (some "") (some "image/jpeg") (some [1])
            (some 0) (some 1)),
           .data rawDone]).delivered = [[]] := by
  decide

/-- C3 amended: the finalized collection's length equals the number of
`file`-typed messages that pass the receiver's acceptance guard (data present,
name and MIME type present and non-empty) received before finalization — for
the terminator-triggered path always, and for the close-triggered path
whenever that count is positive (a close with no accepted file delivers
nothing). -/
theorem receiver_finalized_length (msgs : List RawMsg)
    (h : ∀ m ∈ msgs, m.type ≠ "done") :
    (recvStep (recvRun initialReceiver (msgs.map RecvEvent.data))
        (.data rawDone)).delivered = [acceptedFiles msgs] ∧
      (recvStep (recvRun initialReceiver (msgs.map RecvEvent.data))
          .close).delivered
        = (if 0 < (acceptedFiles msgs).length then [acceptedFiles msgs]
           else []) ∧
      (acceptedFiles msgs).length = msgs.countP acceptedMsg := by
  rcases recvRun_data_inv msgs initialReceiver h with ⟨h1, h2⟩
  have hf : (recvRun initialReceiver (msgs.map RecvEvent.data)).receivedFiles
      = acceptedFiles msgs := by
    simpa [initialReceiver] using h1
  have hd : (recvRun initialReceiver (msgs.map RecvEvent.data)).delivered
      = [] := by
    simpa [initialReceiver] using h2
  refine ⟨?_, ?_, ?_⟩
  · show (handleData (recvRun initialReceiver (msgs.map RecvEvent.data))
        rawDone).delivered = [acceptedFiles msgs]
    rw [handleData]
    simp [rawDone, ControlMessage.toRaw, hf, hd]
  · show (handleClose (recvRun initialReceiver
        (msgs.map RecvEvent.data))).delivered = _
    rw [handleClose]
    by_cases hpos : 0 < (acceptedFiles msgs).length
    · rw [if_pos (by simpa [hf] using hpos), if_pos hpos]
      simp [hf, hd]
    · rw [if_neg (by simpa [hf] using hpos), if_neg hpos]
      exact hd
  · simp [acceptedFiles, List.countP_eq_length_filter]

/-- Demonstration raw file message: one valid accepted file. -/
def demoRawFile : RawMsg :=
  (ControlMessage.file "a.jpg" "image/jpeg" [1, 2, 3] 0 1).toRaw

/-- C3 witness: a trace with one accepted file message finalizes with a
one-element collection on both the terminator path and the close path. -/
theorem receiver_finalized_length_witness :
    (∀ m ∈ [demoRawFile], m.type ≠ "done") ∧
      ((recvStep (recvRun initialReceiver ([demoRawFile].map RecvEvent.data))
          (.data rawDone)).delivered = [acceptedFiles [demoRawFile]] ∧
        (recvStep (recvRun initialReceiver ([demoRawFile].map RecvEvent.data))
            .close).delivered
          = (if 0 < (acceptedFiles [demoRawFile]).length
             then [acceptedFiles [demoRawFile]] else []) ∧
        (acceptedFiles [demoRawFile]).length
          = [demoRawFile].countP acceptedMsg) :=
  ⟨by decide, receiver_finalized_length [demoRawFile] (by decide)⟩

/-- C2 counterexample: after one file message and the terminator, the receiver
is in `done` with one delivery made; a subsequent channel close hands the same
accumulated collection to the hosting application a second time — the `close`
handler checks only that the collection is non-empty, not whether `done` was
already reached. -/
theorem receiver_close_after_done_redelivers :
    (recvRun initialReceiver [.data demoRawFile, .data rawDone]).status
        = .done ∧
      (recvRun initialReceiver
          [.data demoRawFile, .data rawDone]).delivered
        = [[rawToFile demoRawFile]] ∧
      (recvRun initialReceiver
          [.data demoRawFile, .data rawDone, .close]).delivered
        = [[rawToFile demoRawFile], [rawToFile demoRawFile]] := by
  decide

/-- C2 amended: once the receiver is in `done`, a subsequent channel-close
signal leaves the status at `done` and the accumulated collection unchanged,
but when that collection is non-empty it hands the identical collection to the
hosting application once more — delivery happens once per finalization trigger,
not exactly once overall. -/
theorem receiver_close_after_done (s : ReceiverState)
    (h : s.status = .done) :
    (recvStep s .close).status = .done ∧
      (recvStep s .close).receivedFiles = s.receivedFiles ∧
      (recvStep s .close).delivered
        = (if 0 < s.receivedFiles.length then s.delivered ++ [s.receivedFiles]
           else s.delivered) := by
  show (handleClose s).status = .done ∧ (handleClose s).receivedFiles
      = s.receivedFiles ∧ (handleClose s).delivered = _
  rw [handleClose]
  by_cases hpos : 0 < s.receivedFiles.length
  · rw [if_pos hpos, if_pos hpos]
    exact ⟨rfl, rfl, rfl⟩
  · rw [if_neg hpos, if_neg hpos]
    exact ⟨h, rfl, rfl⟩

/-- C2 witness: the state reached after one file message and the terminator is
in `done`; a close then keeps `done`, keeps the collection, and re-delivers it. -/
theorem receiver_close_after_done_witness :
    (recvRun initialReceiver [.data demoRawFile, .data rawDone]).status
        = .done ∧
      ((recvStep (recvRun initialReceiver [.data demoRawFile, .data rawDone])
          .close).status = .done ∧
        (recvStep (recvRun initialReceiver [.data demoRawFile, .data rawDone])
            .close).receivedFiles
          = (recvRun initialReceiver
              [.data demoRawFile, .data rawDone]).receivedFiles ∧
        (recvStep (recvRun initialReceiver [.data demoRawFile, .data rawDone])
            .close).delivered
          = (if 0 < (recvRun initialReceiver
                [.data demoRawFile, .data rawDone]).receivedFiles.length
             then (recvRun initialReceiver
                    [.data demoRawFile, .data rawDone]).delivered
                  ++ [(recvRun initialReceiver
                        [.data demoRawFile, .data rawDone]).receivedFiles]
             else (recvRun initialReceiver
                    [.data demoRawFile, .data rawDone]).delivered)) :=
  ⟨by decide,
    receiver_close_after_done
      (recvRun initialReceiver [.data demoRawFile, .data rawDone])
      (by decide)⟩

/-- C8: in any batch, an image whose OCR response fails structured parsing
contributes exactly one fallback block carrying the raw response text, every
other image contributes its parsed block sequence unchanged, and the whole
extraction is total — it neither aborts nor drops an image. -/
theorem ocr_malformed_recovery (parse : String → Option (List OcrBlock))
    (pre post : List (Option String)) (bad : Option String)
    (hbad : parse (parseInput bad) = none) :
    extractTextFromImages parse (pre ++ bad :: post)
        = extractTextFromImages parse pre
            ++ ([{ text := fallbackText bad, alignment := "left" }]
                  :: extractTextFromImages parse post) ∧
      (extractTextFromImages parse (pre ++ bad :: post)).length
        = pre.length + 1 + post.length ∧
      ∀ r blocks, parse (parseInput r) = some blocks →
        extractOne parse r = blocks := by
  refine ⟨?_, ?_, ?_⟩
  · simp [extractTextFromImages, extractOne, hbad]
  · simp [extractTextFromImages]
    omega
  · intro r blocks hr
    simp [extractOne, hr]

/-- A concrete model of the JSON collaborator for witnesses: parses only the
literal empty array. -/
def demoParse (s : String) : Option (List OcrBlock) :=
  if s == "[]" then some [] else none

/-- C8 witness: in a three-image batch whose middle response is unparseable,
that image yields one fallback raw-text block, the outer images their parsed
(empty) sequences, and the result still has three entries. -/
theorem ocr_malformed_recovery_witness :
    demoParse (parseInput (some "garbage")) = none ∧
      (extractTextFromImages demoParse ([none] ++ (some "garbage") :: [none])
          = extractTextFromImages demoParse [none]
              ++ ([{ text := fallbackText (some "garbage"),
                     alignment := "left" }]
                    :: extractTextFromImages demoParse [none]) ∧
        (extractTextFromImages demoParse
            ([none] ++ (some "garbage") :: [none])).length
          = ([none] : List (Option String)).length + 1
              + ([none] : List (Option String)).length ∧
        ∀ r blocks, demoParse (parseInput r) = some blocks →
          extractOne demoParse r = blocks) :=
  ⟨by decide, ocr_malformed_recovery demoParse [none] [none] (some "garbage")
    (by decide)⟩

